import Mathlib

/-!
Verification development for the `MapaInteractivoApp` driver screen
(`screens/DriverScreen.tsx`).  The tracking-session logic is embedded as an
event-driven state machine: the component's React state and refs become the
fields of `AppState`, and each transport callback, timer tick, and user
action becomes an `Event`.  JavaScript object identity (the
`lastLocationRef.current !== locationData` comparison in `sendLocation`)
is modelled by tagging every freshly built location object with an
allocation counter.  JavaScript double arithmetic on coordinates is
modelled by exact rationals; the haversine computation, which uses
`Math.sin` / `Math.cos` / `Math.atan2` / `Math.sqrt` / `Math.PI`, is
modelled by the corresponding exact real functions.
-/

namespace Driver

/-- Provenance kind of a sent location (`SentLocation.type`, source line 107):
the source union type is `"manual" | "auto" | "test" | "random"`. -/
inductive SendType
  | manual
  | auto
  | test
  | random
deriving DecidableEq

/-- `LocationData` (source lines 96–103).  Coordinates and the optional
metadata are JavaScript numbers, modelled as rationals; the ISO-8601
timestamp string produced by `new Date().toISOString()` is modelled by the
underlying millisecond instant. -/
structure LocationData where
  latitude : ℚ
  longitude : ℚ
  accuracy : Option ℚ
  timestamp : Nat
  speed : Option ℚ
  heading : Option ℚ
deriving DecidableEq

/-- `SentLocation` (source lines 105–108).  The source identifier is
`Date.now().toString()`; the decimal rendering is an injective formatting
of the millisecond clock value, so the model stores the clock value
itself. -/
structure SentLocation extends LocationData where
  id : Nat
  type : SendType
deriving DecidableEq

/-- `SessionStats` (source lines 110–118).  `lastLocationTime` starts as the
empty string in the source; the model uses `none` for "not yet set". -/
structure SessionStats where
  totalLocationsSent : Nat
  sessionStartTime : Nat
  lastLocationTime : Option Nat
  avgAccuracy : ℚ
  totalDistance : ℝ
  isActive : Bool
  randomDataGenerated : Nat

/-- The socket.io client held in `socketRef`: its auth token and its
`connected` flag (maintained by the transport library). -/
structure SocketState where
  token : String
  connected : Bool
deriving DecidableEq

/-- The payload emitted on the `sendLocation` channel (source lines
445–453). -/
structure Payload where
  vehicleId : String
  latitude : ℚ
  longitude : ℚ
  timestamp : Nat
  accuracy : Option ℚ
  speed : Option ℚ
  heading : Option ℚ
deriving DecidableEq

/-- Foreground-location permission status (source lines 139–141). -/
inductive PermStatus
  | granted
  | denied
  | undetermined
deriving DecidableEq

/-- One `Alert.alert` call site of the component; dynamic arguments of the
message are kept, the literal text is presentation detail. -/
inductive Notice
  | noConnection
  | authMissing
  | connectedOk
  | disconnectedLost
  | connError (msg : String)
  | permissionNeeded
  | fetchFailed
  | mustConnectFirst
  | trackingPermission
  | trackingStarted (interval : Nat)
  | manualSent
  | randomStarted (interval : Nat)
  | testShown (lat lng : ℚ)
deriving DecidableEq

/-- A raw reading delivered by the geolocation provider, after the
source's `|| undefined` coercions on `accuracy`, `speed` and `heading`. -/
structure GeoPos where
  latitude : ℚ
  longitude : ℚ
  accuracy : Option ℚ
  speed : Option ℚ
  heading : Option ℚ
deriving DecidableEq

/-- The random fixture produced by `generateRandomTestData` (source lines
50–73): accuracy and speed are always present; the scenario name is
presentation detail. -/
structure RandomGeo where
  latitude : ℚ
  longitude : ℚ
  accuracy : ℚ
  speed : ℚ
deriving DecidableEq

/-- The tracking-session state: the component's React state hooks and refs
(source lines 126–167).  `nextObjId` is the allocation counter giving each
freshly created location object its JavaScript identity; `emitted` is the
cumulative log of payloads handed to the transport; `alerts` the log of
notices shown.  Pure map/refresh presentation state (`currentLocation`,
`isMapExpanded`, `refreshing`, `mapRef`) is excluded. -/
structure AppState where
  vehicleId : String
  isConnected : Bool
  isConnecting : Bool
  isTracking : Bool
  connectionStatus : String
  permissionStatus : PermStatus
  trackingInterval : Nat
  randomDataInterval : Nat
  isGeneratingRandomData : Bool
  socket : Option SocketState
  subscriptionActive : Bool
  trackingTimerActive : Bool
  randomTimerActive : Bool
  sentLocations : List SentLocation
  stats : SessionStats
  lastLocationRef : Option (Nat × LocationData)
  nextObjId : Nat
  emitted : List Payload
  alerts : List Notice

/-- The component's initial state (the `useState` initialisers, source lines
126–157), for a given vehicle identifier and mount instant. -/
def initState (vid : String) (mountTime : Nat) : AppState where
  vehicleId := vid
  isConnected := false
  isConnecting := false
  isTracking := false
  connectionStatus := "Desconectado"
  permissionStatus := .undetermined
  trackingInterval := 5
  randomDataInterval := 3
  isGeneratingRandomData := false
  socket := none
  subscriptionActive := false
  trackingTimerActive := false
  randomTimerActive := false
  sentLocations := []
  stats :=
    { totalLocationsSent := 0
      sessionStartTime := mountTime
      lastLocationTime := none
      avgAccuracy := 0
      totalDistance := 0
      isActive := false
      randomDataGenerated := 0 }
  lastLocationRef := none
  nextObjId := 0
  emitted := []
  alerts := []

/-- `socketRef.current?.connected` coalesced to a Boolean. -/
def socketLive (s : AppState) : Bool :=
  match s.socket with
  | some sk => sk.connected
  | none => false

/-- JavaScript `Math.atan2 y x` on ordinary (non-NaN, unsigned-zero)
inputs. -/
noncomputable def atan2 (y x : ℝ) : ℝ :=
  if 0 < x then Real.arctan (y / x)
  else if x < 0 then
    (if 0 ≤ y then Real.arctan (y / x) + Real.pi else Real.arctan (y / x) - Real.pi)
  else
    (if 0 < y then Real.pi / 2 else if y < 0 then -(Real.pi / 2) else 0)

/-- `calculateDistance` (source lines 416–433): haversine great-circle
distance with Earth radius `R = 6371` km, returned in meters
(`R * c * 1000`). -/
noncomputable def calculateDistance (lat1 lon1 lat2 lon2 : ℚ) : ℝ :=
  let R : ℝ := 6371
  let dLat : ℝ := ((lat2 : ℝ) - (lat1 : ℝ)) * Real.pi / 180
  let dLon : ℝ := ((lon2 : ℝ) - (lon1 : ℝ)) * Real.pi / 180
  let a : ℝ :=
    Real.sin (dLat / 2) * Real.sin (dLat / 2) +
      Real.cos ((lat1 : ℝ) * Real.pi / 180) * Real.cos ((lat2 : ℝ) * Real.pi / 180) *
        Real.sin (dLon / 2) * Real.sin (dLon / 2)
  let c : ℝ := 2 * atan2 (Real.sqrt a) (Real.sqrt (1 - a))
  R * c * 1000

/-- `stopTracking` (source lines 568–580): clears the tracking flag, the
continuous subscription and the redundant timer; touches nothing else. -/
def stopTracking (s : AppState) : AppState :=
  { s with isTracking := false, subscriptionActive := false, trackingTimerActive := false }

/-- `stopRandomDataGeneration` (source lines 637–644). -/
def stopRandomData (s : AppState) : AppState :=
  { s with isGeneratingRandomData := false, randomTimerActive := false }

/-- The `LocationData` object built from a provider reading (source lines
306–313 and 534–541): coordinates and metadata from the reading, timestamp
from the current clock. -/
def ldOfGeo (p : GeoPos) (now : Nat) : LocationData :=
  { latitude := p.latitude, longitude := p.longitude, accuracy := p.accuracy,
    timestamp := now, speed := p.speed, heading := p.heading }

/-- The `LocationData` object built from a random fixture (source lines
592–599): accuracy and speed always present, heading absent. -/
def ldOfRandom (d : RandomGeo) (now : Nat) : LocationData :=
  { latitude := d.latitude, longitude := d.longitude, accuracy := some d.accuracy,
    timestamp := now, speed := some d.speed, heading := none }

/-- The test location built by `useCartagenaTestLocation` (source lines
725–731): fixed accuracy 15, no speed or heading. -/
def ldOfTest (lat lng : ℚ) (now : Nat) : LocationData :=
  { latitude := lat, longitude := lng, accuracy := some 15,
    timestamp := now, speed := none, heading := none }

/-- `getCurrentLocation` (source lines 286–328).  `res` is the provider's
response (`none` for a fetch error).  Returns the updated state and, on
success, the freshly allocated object together with its identity: the
function stores that same object in `lastLocationRef`.  The
`currentLocation` display update is presentation detail. -/
def getCurrentLocationUpd (s : AppState) (res : Option GeoPos) (now : Nat) :
    AppState × Option (Nat × LocationData) :=
  if s.permissionStatus ≠ .granted then
    ({ s with alerts := .permissionNeeded :: s.alerts }, none)
  else
    match res with
    | none => ({ s with alerts := .fetchFailed :: s.alerts }, none)
    | some p =>
      let ld := ldOfGeo p now
      let o := s.nextObjId
      ({ s with lastLocationRef := some (o, ld), nextObjId := o + 1 }, some (o, ld))

/-- `sendLocation` (source lines 436–494).  `oid` is the identity of the
`locationData` object passed by the caller; the source's reference
comparison `lastLocationRef.current !== locationData` is `j ≠ oid`.
The record identifier is `Date.now()` (see `SentLocation`). -/
noncomputable def sendLocation (s : AppState) (oid : Nat) (ld : LocationData)
    (ty : SendType) (now : Nat) : AppState :=
  if socketLive s = false then
    { s with alerts := .noConnection :: s.alerts }
  else
    let payload : Payload :=
      { vehicleId := s.vehicleId, latitude := ld.latitude, longitude := ld.longitude,
        timestamp := ld.timestamp, accuracy := ld.accuracy, speed := ld.speed,
        heading := ld.heading }
    let sent : SentLocation := { toLocationData := ld, id := now, type := ty }
    let stats1 : SessionStats :=
      { s.stats with
        totalLocationsSent := s.stats.totalLocationsSent + 1
        lastLocationTime := some ld.timestamp
        avgAccuracy :=
          if s.stats.avgAccuracy = 0 then ld.accuracy.getD 0
          else (s.stats.avgAccuracy + ld.accuracy.getD 0) / 2 }
    let stats2 : SessionStats :=
      if ty = .random then
        { stats1 with randomDataGenerated := s.stats.randomDataGenerated + 1 }
      else stats1
    let stats3 : SessionStats :=
      match s.lastLocationRef with
      | some (j, prev) =>
        if j ≠ oid then
          { stats2 with totalDistance :=
              s.stats.totalDistance +
                calculateDistance prev.latitude prev.longitude ld.latitude ld.longitude }
        else stats2
      | none => stats2
    { s with
      emitted := s.emitted ++ [payload]
      sentLocations := sent :: s.sentLocations.take 99
      stats := stats3 }

/-- The discrete inputs of the session state machine.  Every event carries
the clock instant (`Date.now()` / `toISOString()`) at which its handler
runs.  Fetch-style events carry the geolocation provider's response. -/
inductive Event
  | connectAttempt (token : Option String) (now : Nat)
  | socketConnect (now : Nat)
  | socketDisconnect (reason : String) (now : Nat)
  | socketConnectError (msg : String) (now : Nat)
  | disconnectAction (now : Nat)
  | permissionSet (st : PermStatus) (now : Nat)
  | fetchCurrent (res : Option GeoPos) (now : Nat)
  | manualSend (res : Option GeoPos) (now : Nat)
  | startTrack (res : Option GeoPos) (now : Nat)
  | subscriptionTick (pos : GeoPos) (now : Nat)
  | timerTick (res : Option GeoPos) (now : Nat)
  | stopTrack (now : Nat)
  | startRandom (now : Nat)
  | randomTick (d : RandomGeo) (now : Nat)
  | stopRandom (now : Nat)
  | testLocation (lat lng : ℚ) (now : Nat)
  | clearConfirm (now : Nat)
deriving DecidableEq

/-- The clock instant carried by an event. -/
def Event.time : Event → Nat
  | .connectAttempt _ n => n
  | .socketConnect n => n
  | .socketDisconnect _ n => n
  | .socketConnectError _ n => n
  | .disconnectAction n => n
  | .permissionSet _ n => n
  | .fetchCurrent _ n => n
  | .manualSend _ n => n
  | .startTrack _ n => n
  | .subscriptionTick _ n => n
  | .timerTick _ n => n
  | .stopTrack n => n
  | .startRandom n => n
  | .randomTick _ n => n
  | .stopRandom n => n
  | .testLocation _ _ n => n
  | .clearConfirm n => n

/-- One serialized handler execution (spec section 5's single-threaded
event-loop model).  Each case is the body of the corresponding source
function or callback. -/
noncomputable def step (s : AppState) : Event → AppState
  | .connectAttempt tok _now =>
    -- connectToServer (331–400)
    if s.isConnecting || s.isConnected then s
    else
      let s1 := { s with isConnecting := true, connectionStatus := "Conectando..." }
      match tok with
      | none =>
        { s1 with alerts := .authMissing :: s1.alerts,
                  connectionStatus := "Error de autenticación", isConnecting := false }
      | some t =>
        { s1 with socket := some { token := t, connected := false } }
  | .socketConnect now =>
    -- "connect" handler (357–372); the transport marks the socket connected
    match s.socket with
    | none => s
    | some sk =>
      { s with socket := some { sk with connected := true },
               isConnected := true, isConnecting := false,
               connectionStatus := "Conectado",
               stats := { s.stats with sessionStartTime := now, isActive := true },
               alerts := .connectedOk :: s.alerts }
  | .socketDisconnect reason _now =>
    -- "disconnect" handler (374–385); the transport marks the socket closed
    match s.socket with
    | none => s
    | some sk =>
      let s1 := { s with socket := some { sk with connected := false },
                         isConnected := false,
                         connectionStatus := "Desconectado: " ++ reason }
      let s2 := stopRandomData (stopTracking s1)
      { s2 with alerts := .disconnectedLost :: s2.alerts }
  | .socketConnectError msg _now =>
    -- "connect_error" handler (387–393): note it does NOT stop tracking
    { s with isConnected := false, isConnecting := false,
             connectionStatus := "Error: " ++ msg,
             alerts := .connError msg :: s.alerts }
  | .disconnectAction _now =>
    -- disconnectFromServer (403–413); the transport callback detaches with
    -- the socket
    let s1 := { s with socket := none, isConnected := false,
                       connectionStatus := "Desconectado" }
    let s2 := stopRandomData (stopTracking s1)
    { s2 with stats := { s2.stats with isActive := false } }
  | .permissionSet st _now =>
    -- outcome of the permission query/request flows (181–283)
    { s with permissionStatus := st }
  | .fetchCurrent res now =>
    -- a standalone getCurrentLocation call (mount flow 192, refresh 847)
    (getCurrentLocationUpd s res now).1
  | .manualSend res now =>
    -- sendCurrentLocationManually (710–721)
    if s.isConnected = false then { s with alerts := .mustConnectFirst :: s.alerts }
    else
      match getCurrentLocationUpd s res now with
      | (s1, none) => s1
      | (s1, some (o, ld)) =>
        let s2 := sendLocation s1 o ld .manual now
        { s2 with alerts := .manualSent :: s2.alerts }
  | .startTrack res now =>
    -- startTracking (497–565)
    if s.isConnected = false then { s with alerts := .mustConnectFirst :: s.alerts }
    else if s.permissionStatus ≠ .granted then
      { s with alerts := .trackingPermission :: s.alerts }
    else
      let s1 := { s with isTracking := true }
      let s2 :=
        match getCurrentLocationUpd s1 res now with
        | (t, none) => t
        | (t, some (o, ld)) => sendLocation t o ld .auto now
      let s3 := { s2 with subscriptionActive := true, trackingTimerActive := true }
      { s3 with alerts := .trackingStarted s3.trackingInterval :: s3.alerts }
  | .subscriptionTick p now =>
    -- watchPositionAsync callback (532–544): builds a fresh object and
    -- submits it; does NOT touch lastLocationRef
    let o := s.nextObjId
    sendLocation { s with nextObjId := o + 1 } o (ldOfGeo p now) .auto now
  | .timerTick res now =>
    -- the redundant tracking interval (549–554)
    match getCurrentLocationUpd s res now with
    | (s1, none) => s1
    | (s1, some (o, ld)) => sendLocation s1 o ld .auto now
  | .stopTrack _now => stopTracking s
  | .startRandom _now =>
    -- startRandomDataGeneration (583–634)
    if s.isConnected = false then { s with alerts := .mustConnectFirst :: s.alerts }
    else
      let s1 := { s with isGeneratingRandomData := true, randomTimerActive := true }
      { s1 with alerts := .randomStarted s1.randomDataInterval :: s1.alerts }
  | .randomTick d now =>
    -- the random-data interval callback (591–628)
    let o := s.nextObjId
    sendLocation { s with nextObjId := o + 1 } o (ldOfRandom d now) .random now
  | .stopRandom _now => stopRandomData s
  | .testLocation lat lng now =>
    -- useCartagenaTestLocation (724–769): stores the test object in
    -- lastLocationRef, then submits it (same object) when connected
    let o := s.nextObjId
    let ld := ldOfTest lat lng now
    let s1 := { s with nextObjId := o + 1, lastLocationRef := some (o, ld) }
    let s2 := if s1.isConnected then sendLocation s1 o ld .test now else s1
    { s2 with alerts := .testShown lat lng :: s2.alerts }
  | .clearConfirm _now =>
    -- clearHistory, confirmed (792–814)
    { s with
      sentLocations := []
      stats :=
        { s.stats with
          totalLocationsSent := 0
          totalDistance := 0
          avgAccuracy := 0
          randomDataGenerated := 0 } }

/-- Environment enabling conditions: transport callbacks require a socket in
the matching mode (socket.io raises `connect`/`connect_error` only while
disconnected and `disconnect` only while connected), and timer/subscription
callbacks require their source to be installed.  User actions are always
possible. -/
def enabled (s : AppState) : Event → Bool
  | .socketConnect _ =>
    match s.socket with
    | some sk => !sk.connected
    | none => false
  | .socketDisconnect _ _ =>
    match s.socket with
    | some sk => sk.connected
    | none => false
  | .socketConnectError _ _ =>
    match s.socket with
    | some sk => !sk.connected
    | none => false
  | .subscriptionTick _ _ => s.subscriptionActive
  | .timerTick _ _ => s.trackingTimerActive
  | .randomTick _ _ => s.randomTimerActive
  | _ => true

/-- Run a sequence of events. -/
noncomputable def runTrace (s : AppState) : List Event → AppState
  | [] => s
  | e :: es => runTrace (step s e) es

/-- Every event of the sequence is enabled when it fires. -/
noncomputable def okTrace (s : AppState) : List Event → Bool
  | [] => true
  | e :: es => enabled s e && okTrace (step s e) es

/-- The event clocks are strictly increasing, starting above `t`. -/
def timesOK : Nat → List Event → Bool
  | _, [] => true
  | t, e :: es => Nat.blt t e.time && timesOK e.time es

/-- Is this the confirmed history-clear action? -/
def isClearEvent : Event → Bool
  | .clearConfirm _ => true
  | _ => false

/-- No history clear occurs in the sequence. -/
def noClear (es : List Event) : Bool :=
  es.all fun e => !isClearEvent e

/-- The sample (and provenance kind) an event hands to `sendLocation`, if
any; mirrors the guards of the corresponding `step` cases. -/
def attempt (s : AppState) : Event → Option (LocationData × SendType)
  | .manualSend res now =>
    if s.isConnected = false then none
    else
      match getCurrentLocationUpd s res now with
      | (_, none) => none
      | (_, some (_, ld)) => some (ld, .manual)
  | .startTrack res now =>
    if s.isConnected = false then none
    else if s.permissionStatus ≠ .granted then none
    else
      match getCurrentLocationUpd { s with isTracking := true } res now with
      | (_, none) => none
      | (_, some (_, ld)) => some (ld, .auto)
  | .subscriptionTick p now => some (ldOfGeo p now, .auto)
  | .timerTick res now =>
    match getCurrentLocationUpd s res now with
    | (_, none) => none
    | (_, some (_, ld)) => some (ld, .auto)
  | .randomTick d now => some (ldOfRandom d now, .random)
  | .testLocation lat lng now =>
    if s.isConnected then some (ldOfTest lat lng now, .test) else none
  | _ => none

/-- The `SentRecord`s an event appends to the history (zero or one): the
attempted sample, provided the transport guard of `sendLocation` passes. -/
def recOf (s : AppState) (e : Event) : List SentLocation :=
  match attempt s e with
  | some (ld, ty) =>
    if socketLive s then [{ toLocationData := ld, id := e.time, type := ty }] else []
  | none => []

/-- The full, untruncated submission history of a run (newest first). -/
noncomputable def histLog (s : AppState) : List Event → List SentLocation
  | [] => []
  | e :: es => histLog (step s e) es ++ recOf s e

/-- The connection/tracking coupling invariant: a connected flag is backed
by a live socket, and a disconnected session has no tracking flag, no
sampling subscription and no timers. -/
def ConnInv (s : AppState) : Prop :=
  (s.isConnected = true → socketLive s = true) ∧
  (s.isConnected = false →
    s.isTracking = false ∧ s.subscriptionActive = false ∧
    s.trackingTimerActive = false ∧ s.isGeneratingRandomData = false ∧
    s.randomTimerActive = false)

/-- Events whose handler runs the one-shot fetch `getCurrentLocation` or the
test-location action — the only writers of `lastLocationRef`. -/
def isFetchOrTest : Event → Bool
  | .fetchCurrent _ _ => true
  | .manualSend _ _ => true
  | .startTrack _ _ => true
  | .timerTick _ _ => true
  | .testLocation _ _ _ => true
  | _ => false

/-- A session in which a raw GPS reading is fetched once (never submitted,
the transport is still down), the driver then connects and starts the
random-data generator, and a single random submission occurs. -/
def trC1 : List Event :=
  [.permissionSet .granted 1, .fetchCurrent (some ⟨0, 0, none, none, none⟩) 2,
   .connectAttempt (some "tok") 3, .socketConnect 4, .startRandom 5,
   .randomTick ⟨90, 0, 10, 0⟩ 6]

/-- A session with two random submissions whose handlers run at the same
millisecond (`Date.now()` returns 7 twice). -/
def trC3 : List Event :=
  [.connectAttempt (some "tok") 1, .socketConnect 2, .startRandom 3,
   .randomTick ⟨10, -75, 12, 3⟩ 7, .randomTick ⟨11, -75, 9, 4⟩ 7]

/-- A session with two random submissions at strictly increasing clocks. -/
def trSub : List Event :=
  [.connectAttempt (some "tok") 1, .socketConnect 2, .startRandom 3,
   .randomTick ⟨10, -75, 12, 3⟩ 4, .randomTick ⟨11, -75, 9, 4⟩ 5]

/-- A session that connects successfully and nothing else. -/
def trConn : List Event :=
  [.connectAttempt (some "tok") 1, .socketConnect 2]

/-- A freshly connected session whose `lastLocationRef` holds the object
allocated by a previous one-shot fetch. -/
def stLive : AppState :=
  { initState "driver-mobile" 0 with
    socket := some { token := "tok", connected := true }
    isConnected := true
    lastLocationRef := some (0, ldOfTest 10 (-75) 3)
    nextObjId := 1 }

/-! ### Frame lemmas for the embedded helper functions -/

theorem sendLocation_socket (s : AppState) (oid : Nat) (ld : LocationData)
    (ty : SendType) (now : Nat) :
    (sendLocation s oid ld ty now).socket = s.socket := by
  unfold sendLocation; split <;> rfl

theorem sendLocation_flags (s : AppState) (oid : Nat) (ld : LocationData)
    (ty : SendType) (now : Nat) :
    (sendLocation s oid ld ty now).isConnected = s.isConnected ∧
    (sendLocation s oid ld ty now).isConnecting = s.isConnecting ∧
    (sendLocation s oid ld ty now).isTracking = s.isTracking ∧
    (sendLocation s oid ld ty now).subscriptionActive = s.subscriptionActive ∧
    (sendLocation s oid ld ty now).trackingTimerActive = s.trackingTimerActive ∧
    (sendLocation s oid ld ty now).isGeneratingRandomData = s.isGeneratingRandomData ∧
    (sendLocation s oid ld ty now).randomTimerActive = s.randomTimerActive ∧
    (sendLocation s oid ld ty now).permissionStatus = s.permissionStatus := by
  unfold sendLocation; split <;> exact ⟨rfl, rfl, rfl, rfl, rfl, rfl, rfl, rfl⟩

theorem sendLocation_lastRef (s : AppState) (oid : Nat) (ld : LocationData)
    (ty : SendType) (now : Nat) :
    (sendLocation s oid ld ty now).lastLocationRef = s.lastLocationRef := by
  unfold sendLocation; split <;> rfl

theorem getCurrentLocationUpd_socket (s : AppState) (res : Option GeoPos) (now : Nat) :
    (getCurrentLocationUpd s res now).1.socket = s.socket := by
  unfold getCurrentLocationUpd; split
  · rfl
  · cases res <;> rfl

theorem getCurrentLocationUpd_flags (s : AppState) (res : Option GeoPos) (now : Nat) :
    (getCurrentLocationUpd s res now).1.isConnected = s.isConnected ∧
    (getCurrentLocationUpd s res now).1.isConnecting = s.isConnecting ∧
    (getCurrentLocationUpd s res now).1.isTracking = s.isTracking ∧
    (getCurrentLocationUpd s res now).1.subscriptionActive = s.subscriptionActive ∧
    (getCurrentLocationUpd s res now).1.trackingTimerActive = s.trackingTimerActive ∧
    (getCurrentLocationUpd s res now).1.isGeneratingRandomData = s.isGeneratingRandomData ∧
    (getCurrentLocationUpd s res now).1.randomTimerActive = s.randomTimerActive ∧
    (getCurrentLocationUpd s res now).1.permissionStatus = s.permissionStatus := by
  unfold getCurrentLocationUpd; split
  · exact ⟨rfl, rfl, rfl, rfl, rfl, rfl, rfl, rfl⟩
  · cases res <;> exact ⟨rfl, rfl, rfl, rfl, rfl, rfl, rfl, rfl⟩

theorem getCurrentLocationUpd_hist (s : AppState) (res : Option GeoPos) (now : Nat) :
    (getCurrentLocationUpd s res now).1.sentLocations = s.sentLocations ∧
    (getCurrentLocationUpd s res now).1.emitted = s.emitted := by
  unfold getCurrentLocationUpd; split
  · exact ⟨rfl, rfl⟩
  · cases res <;> exact ⟨rfl, rfl⟩

theorem getCurrentLocationUpd_stats (s : AppState) (res : Option GeoPos) (now : Nat) :
    (getCurrentLocationUpd s res now).1.stats = s.stats := by
  unfold getCurrentLocationUpd; split
  · rfl
  · cases res <;> rfl

theorem socketLive_eq_of_socket_eq {s₁ s₂ : AppState} (h : s₁.socket = s₂.socket) :
    socketLive s₁ = socketLive s₂ := by
  unfold socketLive; rw [h]

/-! ### Evaluation of the haversine formula at the counterexample points -/

theorem calcDist_pole : calculateDistance 0 0 90 0 = 6371 * (Real.pi / 2) * 1000 := by
  have e1 : (((90 : ℚ) : ℝ) - ((0 : ℚ) : ℝ)) * Real.pi / 180 / 2 = Real.pi / 4 := by
    push_cast; ring
  have e2 : (((0 : ℚ) : ℝ) - ((0 : ℚ) : ℝ)) * Real.pi / 180 / 2 = 0 := by
    push_cast; ring
  have e3 : ((0 : ℚ) : ℝ) * Real.pi / 180 = 0 := by push_cast; ring
  have e4 : ((90 : ℚ) : ℝ) * Real.pi / 180 = Real.pi / 2 := by push_cast; ring
  have h22 : Real.sqrt 2 * Real.sqrt 2 = 2 := Real.mul_self_sqrt (by norm_num)
  have ha : Real.sqrt 2 / 2 * (Real.sqrt 2 / 2) + 1 * 0 * 0 * 0 = (1 : ℝ) / 2 := by
    rw [div_mul_div_comm, h22]; norm_num
  have hpos : 0 < Real.sqrt (1 / 2) := Real.sqrt_pos.mpr (by norm_num)
  simp only [calculateDistance]
  rw [e1, e2, e3, e4, Real.sin_pi_div_four, Real.sin_zero, Real.cos_zero,
    Real.cos_pi_div_two]
  rw [show Real.sqrt 2 / 2 * (Real.sqrt 2 / 2) + 1 * 0 * 0 * 0 = (1 : ℝ) / 2 from ha]
  rw [show (1 : ℝ) - 1 / 2 = 1 / 2 by norm_num]
  unfold atan2
  rw [if_pos hpos, div_self (ne_of_gt hpos), Real.arctan_one]
  ring

/-! ### Claim C1 -/

/-- Claim C1 is false on the code: in trace `trC1` a raw GPS reading is
fetched while disconnected (so it is never submitted), the driver then
connects, and the single submission of the whole session — the first one,
with no previously *submitted* sample — already adds a positive haversine
distance (from the fetched-but-never-submitted reading stored in
`lastLocationRef`).  `totalLocationsSent = 1` with `totalDistance > 0`
contradicts "distance is accumulated only between two sent samples". -/
theorem claim_C1_counterexample :
    okTrace (initState "driver-mobile" 0) trC1 = true ∧
    (runTrace (initState "driver-mobile" 0) trC1).stats.totalLocationsSent = 1 ∧
    0 < (runTrace (initState "driver-mobile" 0) trC1).stats.totalDistance := by
  refine ⟨by decide, by decide, ?_⟩
  have h : (runTrace (initState "driver-mobile" 0) trC1).stats.totalDistance
      = 0 + calculateDistance 0 0 90 0 := rfl
  rw [h, zero_add, calcDist_pole]
  positivity

/-- Claim C1 (amended): on a successful submission, the distance added to
cumulative `totalDistance` is the haversine great-circle distance (Earth
radius 6371 km, meters) between the submitted sample and the object stored
in `lastLocationRef` — the last location stored by a one-shot fetch or the
test-location action, which need not have been submitted — provided that
stored object exists and is not the very object being submitted; otherwise
nothing is added.  The baseline is not the previously submitted sample. -/
theorem claim_C1_amended (s : AppState) (oid : Nat) (ld : LocationData)
    (ty : SendType) (now : Nat) (hlive : socketLive s = true) :
    (sendLocation s oid ld ty now).stats.totalDistance =
      s.stats.totalDistance +
        (match s.lastLocationRef with
         | some (j, prev) =>
           if j ≠ oid then
             calculateDistance prev.latitude prev.longitude ld.latitude ld.longitude
           else 0
         | none => 0) := by
  simp only [sendLocation]
  rw [if_neg (by simp [hlive])]
  rcases s.lastLocationRef with _ | ⟨j, prev⟩ <;> simp <;> split_ifs <;> simp

/-- Witness for the amended Claim C1 at a concrete connected state. -/
theorem claim_C1_witness :
    socketLive stLive = true ∧
    (sendLocation stLive 1 (ldOfTest 11 (-75) 4) .auto 5).stats.totalDistance =
      stLive.stats.totalDistance +
        (match stLive.lastLocationRef with
         | some (j, prev) =>
           if j ≠ 1 then
             calculateDistance prev.latitude prev.longitude
               (ldOfTest 11 (-75) 4).latitude (ldOfTest 11 (-75) 4).longitude
           else 0
         | none => 0) :=
  ⟨by decide, claim_C1_amended stLive 1 (ldOfTest 11 (-75) 4) .auto 5 (by decide)⟩

/-! ### Claim C6 -/

/-- Claim C6: every successful submission increments the total count by
one, sets `lastLocationTime` to the submitted sample's timestamp, and
updates the running average accuracy by exactly
`avg' = (avg == 0 ? acc : (avg + acc) / 2)` where `acc` is the sample's
accuracy defaulted to 0 when absent (the source's `accuracy || 0`) — the
recency-weighted smoothing, not a true mean. -/
theorem claim_C6 (s : AppState) (oid : Nat) (ld : LocationData)
    (ty : SendType) (now : Nat) (hlive : socketLive s = true) :
    (sendLocation s oid ld ty now).stats.totalLocationsSent =
      s.stats.totalLocationsSent + 1 ∧
    (sendLocation s oid ld ty now).stats.lastLocationTime = some ld.timestamp ∧
    (sendLocation s oid ld ty now).stats.avgAccuracy =
      (if s.stats.avgAccuracy = 0 then ld.accuracy.getD 0
       else (s.stats.avgAccuracy + ld.accuracy.getD 0) / 2) := by
  simp only [sendLocation]
  rw [if_neg (by simp [hlive])]
  refine ⟨?_, ?_, ?_⟩ <;>
    (rcases s.lastLocationRef with _ | ⟨j, prev⟩ <;> simp <;> split_ifs <;> simp)

/-- Witness for Claim C6 at a concrete connected state. -/
theorem claim_C6_witness :
    socketLive stLive = true ∧
    ((sendLocation stLive 1 (ldOfTest 11 (-75) 4) .auto 5).stats.totalLocationsSent =
        stLive.stats.totalLocationsSent + 1 ∧
      (sendLocation stLive 1 (ldOfTest 11 (-75) 4) .auto 5).stats.lastLocationTime =
        some (ldOfTest 11 (-75) 4).timestamp ∧
      (sendLocation stLive 1 (ldOfTest 11 (-75) 4) .auto 5).stats.avgAccuracy =
        (if stLive.stats.avgAccuracy = 0 then (ldOfTest 11 (-75) 4).accuracy.getD 0
         else (stLive.stats.avgAccuracy + (ldOfTest 11 (-75) 4).accuracy.getD 0) / 2)) :=
  ⟨by decide, claim_C6 stLive 1 (ldOfTest 11 (-75) 4) .auto 5 (by decide)⟩

/-! ### Claim C7 -/

/-- Claim C7: submitting while the transport is not connected reports an
error and is otherwise a no-op — the whole state is unchanged except for
the appended error notice; in particular history, stats (count, distance,
average accuracy) and the transport emission log are untouched. -/
theorem claim_C7 (s : AppState) (oid : Nat) (ld : LocationData)
    (ty : SendType) (now : Nat) (hdead : socketLive s = false) :
    sendLocation s oid ld ty now = { s with alerts := .noConnection :: s.alerts } ∧
    (sendLocation s oid ld ty now).sentLocations = s.sentLocations ∧
    (sendLocation s oid ld ty now).stats = s.stats ∧
    (sendLocation s oid ld ty now).emitted = s.emitted ∧
    (sendLocation s oid ld ty now).alerts = .noConnection :: s.alerts := by
  have h : sendLocation s oid ld ty now = { s with alerts := .noConnection :: s.alerts } := by
    unfold sendLocation; rw [if_pos hdead]
  exact ⟨h, by rw [h], by rw [h], by rw [h], by rw [h]⟩

/-- Witness for Claim C7 on the freshly mounted (disconnected) state. -/
theorem claim_C7_witness :
    socketLive (initState "driver-mobile" 0) = false ∧
    (sendLocation (initState "driver-mobile" 0) 0 (ldOfTest 10 (-75) 1) .manual 2).stats =
      (initState "driver-mobile" 0).stats :=
  ⟨by decide,
    (claim_C7 (initState "driver-mobile" 0) 0 (ldOfTest 10 (-75) 1) .manual 2 (by decide)).2.2.1⟩

/-! ### Claim C8 -/

/-- Claim C8: `connect()` with no stored token reports the missing-token
error and never opens a transport: no socket is created, the state does
not become connecting or connected, and everything except the status
string and the reported notice is unchanged. -/
theorem claim_C8 (s : AppState) (now : Nat) (h1 : s.isConnecting = false)
    (h2 : s.isConnected = false) :
    step s (.connectAttempt none now) =
      { s with isConnecting := false,
               connectionStatus := "Error de autenticación",
               alerts := .authMissing :: s.alerts } ∧
    (step s (.connectAttempt none now)).socket = s.socket ∧
    (step s (.connectAttempt none now)).isConnected = false ∧
    (step s (.connectAttempt none now)).isConnecting = false ∧
    (step s (.connectAttempt none now)).sentLocations = s.sentLocations ∧
    (step s (.connectAttempt none now)).stats = s.stats ∧
    (step s (.connectAttempt none now)).emitted = s.emitted := by
  have h : step s (.connectAttempt none now) =
      { s with isConnecting := false,
               connectionStatus := "Error de autenticación",
               alerts := .authMissing :: s.alerts } := by
    simp only [step]
    rw [if_neg (by simp [h1, h2])]
  exact ⟨h, by rw [h], by rw [h]; exact h2, by rw [h], by rw [h], by rw [h], by rw [h]⟩

/-- Witness for Claim C8 on the freshly mounted state. -/
theorem claim_C8_witness :
    (initState "driver-mobile" 0).isConnecting = false ∧
    (initState "driver-mobile" 0).isConnected = false ∧
    (step (initState "driver-mobile" 0) (.connectAttempt none 1)).socket =
      (initState "driver-mobile" 0).socket ∧
    (step (initState "driver-mobile" 0) (.connectAttempt none 1)).isConnected = false :=
  ⟨by decide, by decide,
    (claim_C8 (initState "driver-mobile" 0) 1 (by decide) (by decide)).2.1,
    (claim_C8 (initState "driver-mobile" 0) 1 (by decide) (by decide)).2.2.1⟩

/-! ### Claim C9 -/

/-- Claim C9: `stopTracking` is idempotent, cancels both the continuous
subscription and the redundant timer, and leaves history, statistics,
emissions and notices unchanged; the stop event is exactly this
function. -/
theorem claim_C9 (s : AppState) :
    stopTracking (stopTracking s) = stopTracking s ∧
    (stopTracking s).isTracking = false ∧
    (stopTracking s).subscriptionActive = false ∧
    (stopTracking s).trackingTimerActive = false ∧
    (stopTracking s).sentLocations = s.sentLocations ∧
    (stopTracking s).stats = s.stats ∧
    (stopTracking s).emitted = s.emitted ∧
    (stopTracking s).alerts = s.alerts ∧
    (∀ now, step s (.stopTrack now) = stopTracking s) :=
  ⟨rfl, rfl, rfl, rfl, rfl, rfl, rfl, rfl, fun _ => rfl⟩

/-! ### Claim C10 -/

theorem getCurrentLocationUpd_none_lastRef (s : AppState) (res : Option GeoPos) (now : Nat)
    (h : (getCurrentLocationUpd s res now).2 = none) :
    (getCurrentLocationUpd s res now).1.lastLocationRef = s.lastLocationRef := by
  unfold getCurrentLocationUpd at h ⊢
  by_cases hp : s.permissionStatus ≠ PermStatus.granted
  · rw [if_pos hp]
  · rw [if_neg hp] at h ⊢
    cases res with
    | none => rfl
    | some p => simp at h

theorem step_lastRef_frame (s : AppState) (e : Event) (h : isFetchOrTest e = false) :
    (step s e).lastLocationRef = s.lastLocationRef := by
  cases e with
  | connectAttempt tok now =>
    simp only [step]; split
    · rfl
    · cases tok <;> rfl
  | socketConnect now =>
    simp only [step]; rcases hsk : s.socket with _ | sk <;> simp [hsk]
  | socketDisconnect reason now =>
    simp only [step]; rcases hsk : s.socket with _ | sk <;>
      simp [hsk, stopTracking, stopRandomData]
  | socketConnectError msg now => rfl
  | disconnectAction now => rfl
  | permissionSet st now => rfl
  | fetchCurrent res now => simp [isFetchOrTest] at h
  | manualSend res now => simp [isFetchOrTest] at h
  | startTrack res now => simp [isFetchOrTest] at h
  | subscriptionTick p now =>
    simp only [step]; rw [sendLocation_lastRef]
  | timerTick res now => simp [isFetchOrTest] at h
  | stopTrack now => rfl
  | startRandom now =>
    simp only [step]; split <;> rfl
  | randomTick d now =>
    simp only [step]; rw [sendLocation_lastRef]
  | stopRandom now => rfl
  | testLocation lat lng now => simp [isFetchOrTest] at h
  | clearConfirm now => rfl

/-- Claim C10: a submission never moves the distance baseline —
`sendLocation` leaves `lastLocationRef` unchanged (in particular a sample
delivered by the continuous subscription never becomes the baseline), and
any step that does change `lastLocationRef` is a one-shot fetch
(`getCurrentLocation`, standalone or inside the manual/start/timer flows)
or the test-location action. -/
theorem claim_C10 :
    (∀ s oid ld ty now,
      (sendLocation s oid ld ty now).lastLocationRef = s.lastLocationRef) ∧
    (∀ s p now,
      (step s (.subscriptionTick p now)).lastLocationRef = s.lastLocationRef) ∧
    (∀ s e, (step s e).lastLocationRef ≠ s.lastLocationRef → isFetchOrTest e = true) := by
  refine ⟨sendLocation_lastRef, ?_, ?_⟩
  · intro s p now
    simp only [step]; rw [sendLocation_lastRef]
  · intro s e h
    cases hb : isFetchOrTest e with
    | false => exact absurd (step_lastRef_frame s e hb) h
    | true => rfl

/-- Witness for Claim C10: the test-location action does move the
baseline, and it is one of the designated writer events. -/
theorem claim_C10_witness :
    (step (initState "driver-mobile" 0) (.testLocation 10 (-75) 3)).lastLocationRef ≠
      (initState "driver-mobile" 0).lastLocationRef ∧
    isFetchOrTest (.testLocation 10 (-75) 3) = true :=
  ⟨by decide,
    claim_C10.2.2 (initState "driver-mobile" 0) (.testLocation 10 (-75) 3) (by decide)⟩

/-! ### Claim C2: the connection/tracking invariant -/

theorem ConnInv_congr {s' s : AppState} (hc : s'.isConnected = s.isConnected)
    (hs : s'.socket = s.socket) (ht : s'.isTracking = s.isTracking)
    (hsub : s'.subscriptionActive = s.subscriptionActive)
    (htt : s'.trackingTimerActive = s.trackingTimerActive)
    (hg : s'.isGeneratingRandomData = s.isGeneratingRandomData)
    (hr : s'.randomTimerActive = s.randomTimerActive)
    (hinv : ConnInv s) : ConnInv s' := by
  obtain ⟨h1, h2⟩ := hinv
  refine ⟨fun h => ?_, fun h => ?_⟩
  · rw [hc] at h
    rw [socketLive_eq_of_socket_eq hs]
    exact h1 h
  · rw [hc] at h
    obtain ⟨a, b, c, d, e⟩ := h2 h
    exact ⟨ht.trans a, hsub.trans b, htt.trans c, hg.trans d, hr.trans e⟩

theorem ConnInv_of_connected {s' : AppState} (hc : s'.isConnected = true)
    (hl : socketLive s' = true) : ConnInv s' := by
  refine ⟨fun _ => hl, fun h => ?_⟩
  rw [hc] at h
  exact absurd h (by simp)

theorem ConnInv_sendLocation (s : AppState) (oid : Nat) (ld : LocationData)
    (ty : SendType) (now : Nat) (hinv : ConnInv s) :
    ConnInv (sendLocation s oid ld ty now) :=
  ConnInv_congr (sendLocation_flags s oid ld ty now).1 (sendLocation_socket s oid ld ty now)
    (sendLocation_flags s oid ld ty now).2.2.1 (sendLocation_flags s oid ld ty now).2.2.2.1
    (sendLocation_flags s oid ld ty now).2.2.2.2.1
    (sendLocation_flags s oid ld ty now).2.2.2.2.2.1
    (sendLocation_flags s oid ld ty now).2.2.2.2.2.2.1 hinv

theorem ConnInv_getCurrentLocationUpd (s : AppState) (res : Option GeoPos) (now : Nat)
    (hinv : ConnInv s) : ConnInv (getCurrentLocationUpd s res now).1 :=
  ConnInv_congr (getCurrentLocationUpd_flags s res now).1 (getCurrentLocationUpd_socket s res now)
    (getCurrentLocationUpd_flags s res now).2.2.1 (getCurrentLocationUpd_flags s res now).2.2.2.1
    (getCurrentLocationUpd_flags s res now).2.2.2.2.1
    (getCurrentLocationUpd_flags s res now).2.2.2.2.2.1
    (getCurrentLocationUpd_flags s res now).2.2.2.2.2.2.1 hinv

theorem ConnInv_init (vid : String) (t0 : Nat) : ConnInv (initState vid t0) := by
  refine ⟨fun h => ?_, fun _ => ?_⟩
  · simp [initState] at h
  · exact ⟨rfl, rfl, rfl, rfl, rfl⟩

theorem ConnInv_step (s : AppState) (e : Event) (hinv : ConnInv s)
    (hen : enabled s e = true) : ConnInv (step s e) := by
  cases e with
  | connectAttempt tok now =>
    simp only [step]
    split
    · exact hinv
    · rename_i hguard
      have hc : s.isConnected = false := by
        cases hcc : s.isConnected
        · rfl
        · exact absurd (by simp [hcc]) hguard
      cases tok with
      | none => exact ConnInv_congr rfl rfl rfl rfl rfl rfl rfl hinv
      | some t =>
        refine ⟨fun h => ?_, fun _ => ?_⟩
        · exact absurd (show s.isConnected = true from h) (by simp [hc])
        · simpa using hinv.2 hc
  | socketConnect now =>
    rcases hsk : s.socket with _ | sk
    · simp [step, hsk]; exact hinv
    · simp only [step, hsk]
      exact ConnInv_of_connected rfl rfl
  | socketDisconnect reason now =>
    rcases hsk : s.socket with _ | sk
    · simp [step, hsk]; exact hinv
    · simp only [step, hsk, stopTracking, stopRandomData]
      refine ⟨fun h => ?_, fun _ => ?_⟩
      · simp at h
      · exact ⟨rfl, rfl, rfl, rfl, rfl⟩
  | socketConnectError msg now =>
    have hdead : socketLive s = false := by
      rcases hsk : s.socket with _ | sk
      · simp [socketLive, hsk]
      · have hskc : sk.connected = false := by simpa [enabled, hsk] using hen
        simp [socketLive, hsk, hskc]
    have hc : s.isConnected = false := by
      cases hcc : s.isConnected
      · rfl
      · exact absurd (hinv.1 hcc) (by simp [hdead])
    simp only [step]
    refine ⟨fun h => by simp at h, fun _ => by simpa using hinv.2 hc⟩
  | disconnectAction now =>
    simp only [step]
    refine ⟨fun h => ?_, fun _ => ?_⟩
    · simp [stopTracking, stopRandomData] at h
    · simp [stopTracking, stopRandomData]
  | permissionSet st now => exact ConnInv_congr rfl rfl rfl rfl rfl rfl rfl hinv
  | fetchCurrent res now => exact ConnInv_getCurrentLocationUpd s res now hinv
  | manualSend res now =>
    simp only [step]
    split
    · exact ConnInv_congr rfl rfl rfl rfl rfl rfl rfl hinv
    · rcases hg : getCurrentLocationUpd s res now with ⟨s1, r⟩
      have h1 : (getCurrentLocationUpd s res now).1 = s1 := by rw [hg]
      have hs1 : ConnInv s1 := h1 ▸ ConnInv_getCurrentLocationUpd s res now hinv
      cases r with
      | none => simp only [hg]; exact hs1
      | some pr =>
        obtain ⟨o, ld⟩ := pr
        simp only [hg]
        exact ConnInv_congr rfl rfl rfl rfl rfl rfl rfl
          (ConnInv_sendLocation s1 o ld .manual now hs1)
  | startTrack res now =>
    simp only [step]
    split
    · exact ConnInv_congr rfl rfl rfl rfl rfl rfl rfl hinv
    · split
      · exact ConnInv_congr rfl rfl rfl rfl rfl rfl rfl hinv
      · rename_i hconn hperm
        have hct : s.isConnected = true := by
          cases hcc : s.isConnected
          · exact absurd hcc hconn
          · rfl
        have hlive : socketLive s = true := hinv.1 hct
        rcases hg : getCurrentLocationUpd { s with isTracking := true } res now with ⟨t, r⟩
        have h1 : (getCurrentLocationUpd { s with isTracking := true } res now).1 = t := by
          rw [hg]
        have htsock : t.socket = s.socket := by
          rw [← h1, getCurrentLocationUpd_socket]
        have htconn : t.isConnected = s.isConnected := by
          rw [← h1]; exact (getCurrentLocationUpd_flags _ _ _).1
        cases r with
        | none =>
          simp only [hg]
          exact ConnInv_of_connected (show t.isConnected = true by rw [htconn]; exact hct)
            (show socketLive t = true by
              rw [socketLive_eq_of_socket_eq htsock]; exact hlive)
        | some pr =>
          obtain ⟨o, ld⟩ := pr
          simp only [hg]
          exact ConnInv_of_connected
            (show (sendLocation t o ld .auto now).isConnected = true by
              rw [(sendLocation_flags t o ld .auto now).1, htconn]; exact hct)
            (show socketLive (sendLocation t o ld .auto now) = true by
              rw [socketLive_eq_of_socket_eq (sendLocation_socket t o ld .auto now),
                socketLive_eq_of_socket_eq htsock]; exact hlive)
  | subscriptionTick p now =>
    simp only [step]
    exact ConnInv_sendLocation _ _ _ _ _ (ConnInv_congr rfl rfl rfl rfl rfl rfl rfl hinv)
  | timerTick res now =>
    simp only [step]
    rcases hg : getCurrentLocationUpd s res now with ⟨s1, r⟩
    have h1 : (getCurrentLocationUpd s res now).1 = s1 := by rw [hg]
    have hs1 : ConnInv s1 := h1 ▸ ConnInv_getCurrentLocationUpd s res now hinv
    cases r with
    | none => simp only [hg]; exact hs1
    | some pr =>
      obtain ⟨o, ld⟩ := pr
      simp only [hg]
      exact ConnInv_sendLocation s1 o ld .auto now hs1
  | stopTrack now =>
    refine ⟨fun h => hinv.1 h, fun h => ?_⟩
    obtain ⟨-, -, -, d, e⟩ := hinv.2 h
    exact ⟨rfl, rfl, rfl, d, e⟩
  | startRandom now =>
    simp only [step]
    split
    · exact ConnInv_congr rfl rfl rfl rfl rfl rfl rfl hinv
    · rename_i hconn
      have hct : s.isConnected = true := by
        cases hcc : s.isConnected
        · exact absurd hcc hconn
        · rfl
      exact ConnInv_of_connected hct (hinv.1 hct)
  | randomTick d now =>
    simp only [step]
    exact ConnInv_sendLocation _ _ _ _ _ (ConnInv_congr rfl rfl rfl rfl rfl rfl rfl hinv)
  | stopRandom now =>
    refine ⟨fun h => hinv.1 h, fun h => ?_⟩
    obtain ⟨a, b, c, -, -⟩ := hinv.2 h
    exact ⟨a, b, c, rfl, rfl⟩
  | testLocation lat lng now =>
    simp only [step]
    split
    · rename_i hct
      exact ConnInv_of_connected
        (show (sendLocation _ _ _ .test now).isConnected = true by
          rw [(sendLocation_flags _ _ _ _ _).1]; exact hct)
        (show socketLive (sendLocation _ _ _ .test now) = true by
          rw [socketLive_eq_of_socket_eq (sendLocation_socket _ _ _ _ _)]
          exact hinv.1 hct)
    · rename_i hcf
      have hc : s.isConnected = false := by
        cases hcc : s.isConnected
        · rfl
        · exact absurd hcc hcf
      refine ⟨fun h => absurd (show s.isConnected = true from h) (by simp [hc]), fun _ => ?_⟩
      simpa using hinv.2 hc
  | clearConfirm now => exact ConnInv_congr rfl rfl rfl rfl rfl rfl rfl hinv

theorem ConnInv_run (es : List Event) :
    ∀ s : AppState, ConnInv s → okTrace s es = true → ConnInv (runTrace s es) := by
  induction es with
  | nil => exact fun s h _ => h
  | cons e es ih =>
    intro s h hok
    simp only [okTrace, Bool.and_eq_true] at hok
    exact ih (step s e) (ConnInv_step s e h hok.1) hok.2

/-- Claim C2: in every reachable state of the session state machine, a
disconnected session has tracking inactive and no sampling source alive;
and every step triggered by the transport's `disconnect` or
`connect_error` event ends disconnected with tracking stopped and the
subscription and timers cleared.  (The `connect_error` handler does not
itself cascade a stop, but it can only fire while the socket is not
connected, where the invariant already gives a fully stopped session.) -/
theorem claim_C2 (vid : String) (t0 : Nat) (es : List Event)
    (hok : okTrace (initState vid t0) es = true) :
    ((runTrace (initState vid t0) es).isConnected = false →
      (runTrace (initState vid t0) es).isTracking = false ∧
      (runTrace (initState vid t0) es).subscriptionActive = false ∧
      (runTrace (initState vid t0) es).trackingTimerActive = false ∧
      (runTrace (initState vid t0) es).isGeneratingRandomData = false ∧
      (runTrace (initState vid t0) es).randomTimerActive = false) ∧
    (∀ reason now,
      enabled (runTrace (initState vid t0) es) (.socketDisconnect reason now) = true →
      (step (runTrace (initState vid t0) es) (.socketDisconnect reason now)).isConnected
          = false ∧
      (step (runTrace (initState vid t0) es) (.socketDisconnect reason now)).isTracking
          = false ∧
      (step (runTrace (initState vid t0) es)
          (.socketDisconnect reason now)).subscriptionActive = false ∧
      (step (runTrace (initState vid t0) es)
          (.socketDisconnect reason now)).trackingTimerActive = false ∧
      (step (runTrace (initState vid t0) es)
          (.socketDisconnect reason now)).randomTimerActive = false) ∧
    (∀ msg now,
      enabled (runTrace (initState vid t0) es) (.socketConnectError msg now) = true →
      (step (runTrace (initState vid t0) es) (.socketConnectError msg now)).isConnected
          = false ∧
      (step (runTrace (initState vid t0) es) (.socketConnectError msg now)).isTracking
          = false ∧
      (step (runTrace (initState vid t0) es)
          (.socketConnectError msg now)).subscriptionActive = false ∧
      (step (runTrace (initState vid t0) es)
          (.socketConnectError msg now)).trackingTimerActive = false ∧
      (step (runTrace (initState vid t0) es)
          (.socketConnectError msg now)).randomTimerActive = false) := by
  have hinv : ConnInv (runTrace (initState vid t0) es) :=
    ConnInv_run es _ (ConnInv_init vid t0) hok
  refine ⟨fun h => hinv.2 h, fun reason now hen => ?_, fun msg now hen => ?_⟩
  · have hpost : ConnInv (step (runTrace (initState vid t0) es)
        (.socketDisconnect reason now)) := ConnInv_step _ _ hinv hen
    have hc : (step (runTrace (initState vid t0) es)
        (.socketDisconnect reason now)).isConnected = false := by
      rcases hsk : (runTrace (initState vid t0) es).socket with _ | sk
      · simp [enabled, hsk] at hen
      · simp [step, hsk, stopTracking, stopRandomData]
    obtain ⟨a, b, c, -, e'⟩ := hpost.2 hc
    exact ⟨hc, a, b, c, e'⟩
  · have hpost : ConnInv (step (runTrace (initState vid t0) es)
        (.socketConnectError msg now)) := ConnInv_step _ _ hinv hen
    have hc : (step (runTrace (initState vid t0) es)
        (.socketConnectError msg now)).isConnected = false := rfl
    obtain ⟨a, b, c, -, e'⟩ := hpost.2 hc
    exact ⟨hc, a, b, c, e'⟩

/-- Witness for Claim C2 on a concretely connected session hit by a
transport disconnect. -/
theorem claim_C2_witness :
    okTrace (initState "driver-mobile" 0) trConn = true ∧
    enabled (runTrace (initState "driver-mobile" 0) trConn)
      (.socketDisconnect "transport close" 3) = true ∧
    (step (runTrace (initState "driver-mobile" 0) trConn)
      (.socketDisconnect "transport close" 3)).isTracking = false :=
  ⟨by decide, by decide,
    ((claim_C2 "driver-mobile" 0 trConn (by decide)).2.1 "transport close" 3
      (by decide)).2.1⟩

/-! ### The per-step history/counter effect lemma (shared by C3, C4, C5) -/

theorem sendLocation_dead (s : AppState) (oid : Nat) (ld : LocationData)
    (ty : SendType) (now : Nat) (h : socketLive s = false) :
    sendLocation s oid ld ty now = { s with alerts := .noConnection :: s.alerts } := by
  unfold sendLocation; rw [if_pos h]

theorem sendLocation_hist_cases (s : AppState) (oid : Nat) (ld : LocationData)
    (ty : SendType) (now : Nat) :
    (socketLive s = false ∧
      (sendLocation s oid ld ty now).sentLocations = s.sentLocations ∧
      (sendLocation s oid ld ty now).emitted.length = s.emitted.length ∧
      (sendLocation s oid ld ty now).stats.totalLocationsSent
        = s.stats.totalLocationsSent) ∨
    (socketLive s = true ∧
      (sendLocation s oid ld ty now).sentLocations =
        ({ toLocationData := ld, id := now, type := ty } : SentLocation)
          :: s.sentLocations.take 99 ∧
      (sendLocation s oid ld ty now).emitted.length = s.emitted.length + 1 ∧
      (sendLocation s oid ld ty now).stats.totalLocationsSent
        = s.stats.totalLocationsSent + 1) := by
  cases h : socketLive s with
  | false =>
    left
    refine ⟨rfl, ?_, ?_, ?_⟩ <;> rw [sendLocation_dead s oid ld ty now h]
  | true =>
    right
    refine ⟨rfl, ?_, ?_, ?_⟩
    · simp only [sendLocation]; rw [if_neg (by simp [h])]
    · simp only [sendLocation]; rw [if_neg (by simp [h])]
      simp
    · simp only [sendLocation]; rw [if_neg (by simp [h])]
      rcases s.lastLocationRef with _ | ⟨j, prev⟩ <;> simp <;> split_ifs <;> simp

theorem step_hist (s : AppState) (e : Event) (hne : isClearEvent e = false) :
    ((step s e).sentLocations = s.sentLocations ∧ recOf s e = [] ∧
      (step s e).emitted.length = s.emitted.length ∧
      (step s e).stats.totalLocationsSent = s.stats.totalLocationsSent) ∨
    (∃ r : SentLocation, recOf s e = [r] ∧ r.id = e.time ∧
      (step s e).sentLocations = r :: s.sentLocations.take 99 ∧
      (step s e).emitted.length = s.emitted.length + 1 ∧
      (step s e).stats.totalLocationsSent = s.stats.totalLocationsSent + 1) := by
  cases e with
  | connectAttempt tok now =>
    left
    refine ⟨?_, rfl, ?_, ?_⟩ <;>
      (simp only [step]; split) <;> first | rfl | (cases tok <;> rfl)
  | socketConnect now =>
    left
    refine ⟨?_, rfl, ?_, ?_⟩ <;> (rcases hsk : s.socket with _ | sk <;> simp [step, hsk])
  | socketDisconnect reason now =>
    left
    refine ⟨?_, rfl, ?_, ?_⟩ <;>
      (rcases hsk : s.socket with _ | sk <;>
        simp [step, hsk, stopTracking, stopRandomData])
  | socketConnectError msg now => exact Or.inl ⟨rfl, rfl, rfl, rfl⟩
  | disconnectAction now =>
    left
    refine ⟨?_, rfl, ?_, ?_⟩ <;> simp [step, stopTracking, stopRandomData]
  | permissionSet st now => exact Or.inl ⟨rfl, rfl, rfl, rfl⟩
  | fetchCurrent res now =>
    left
    refine ⟨(getCurrentLocationUpd_hist s res now).1, rfl, ?_, ?_⟩
    · rw [show (step s (.fetchCurrent res now)).emitted
          = (getCurrentLocationUpd s res now).1.emitted from rfl,
        (getCurrentLocationUpd_hist s res now).2]
    · rw [show (step s (.fetchCurrent res now)).stats
          = (getCurrentLocationUpd s res now).1.stats from rfl,
        getCurrentLocationUpd_stats s res now]
  | manualSend res now =>
    by_cases hc : s.isConnected = false
    · left
      refine ⟨?_, ?_, ?_, ?_⟩ <;> simp [step, recOf, attempt, hc]
    · rcases hg : getCurrentLocationUpd s res now with ⟨s1, r⟩
      have h1 : (getCurrentLocationUpd s res now).1 = s1 := by rw [hg]
      have hsent : s1.sentLocations = s.sentLocations := by
        rw [← h1]; exact (getCurrentLocationUpd_hist _ _ _).1
      have hemit : s1.emitted = s.emitted := by
        rw [← h1]; exact (getCurrentLocationUpd_hist _ _ _).2
      have hstats : s1.stats = s.stats := by
        rw [← h1]; exact getCurrentLocationUpd_stats _ _ _
      have hsock : socketLive s1 = socketLive s :=
        socketLive_eq_of_socket_eq (by rw [← h1]; exact getCurrentLocationUpd_socket _ _ _)
      cases r with
      | none =>
        left
        refine ⟨?_, ?_, ?_, ?_⟩ <;>
          simp [step, recOf, attempt, hc, hg, hsent, hemit, hstats]
      | some pr =>
        obtain ⟨o, ld⟩ := pr
        rcases sendLocation_hist_cases s1 o ld .manual now with
          ⟨hdead, hs', he', ht'⟩ | ⟨hlive, hs', he', ht'⟩
        · left
          have hsl : socketLive s = false := by rw [← hsock]; exact hdead
          refine ⟨?_, ?_, ?_, ?_⟩
          · simp only [step]; rw [if_neg hc]; simp only [hg]; rw [hs', hsent]
          · simp [recOf, attempt, Event.time, hc, hg, hsl]
          · simp only [step]; rw [if_neg hc]; simp only [hg]; rw [he', hemit]
          · simp only [step]; rw [if_neg hc]; simp only [hg]; rw [ht', hstats]
        · right
          have hsl : socketLive s = true := by rw [← hsock]; exact hlive
          refine ⟨{ toLocationData := ld, id := now, type := .manual }, ?_, ?_, ?_, ?_, ?_⟩
          · simp [recOf, attempt, Event.time, hc, hg, hsl]
          · simp [Event.time]
          · simp only [step]; rw [if_neg hc]; simp only [hg]; rw [hs', hsent]
          · simp only [step]; rw [if_neg hc]; simp only [hg]; rw [he', hemit]
          · simp only [step]; rw [if_neg hc]; simp only [hg]; rw [ht', hstats]
  | startTrack res now =>
    by_cases hc : s.isConnected = false
    · left
      refine ⟨?_, ?_, ?_, ?_⟩ <;> simp [step, recOf, attempt, hc]
    · by_cases hp : s.permissionStatus ≠ PermStatus.granted
      · left
        refine ⟨?_, ?_, ?_, ?_⟩ <;> simp [step, recOf, attempt, hc, hp]
      · rcases hg : getCurrentLocationUpd { s with isTracking := true } res now with ⟨s1, r⟩
        have h1 : (getCurrentLocationUpd { s with isTracking := true } res now).1 = s1 := by
          rw [hg]
        have hsent : s1.sentLocations = s.sentLocations := by
          rw [← h1]; exact (getCurrentLocationUpd_hist _ _ _).1
        have hemit : s1.emitted = s.emitted := by
          rw [← h1]; exact (getCurrentLocationUpd_hist _ _ _).2
        have hstats : s1.stats = s.stats := by
          rw [← h1]; exact getCurrentLocationUpd_stats _ _ _
        have hsock : socketLive s1 = socketLive s :=
          socketLive_eq_of_socket_eq
            (by rw [← h1]; exact getCurrentLocationUpd_socket _ _ _)
        cases r with
        | none =>
          left
          refine ⟨?_, ?_, ?_, ?_⟩
          · simp only [step]; rw [if_neg hc, if_neg hp]; simp only [hg]; rw [hsent]
          · simp only [recOf, attempt]; rw [if_neg hc, if_neg hp]; simp [Event.time, hg]
          · simp only [step]; rw [if_neg hc, if_neg hp]; simp only [hg]; rw [hemit]
          · simp only [step]; rw [if_neg hc, if_neg hp]; simp only [hg]; rw [hstats]
        | some pr =>
          obtain ⟨o, ld⟩ := pr
          rcases sendLocation_hist_cases s1 o ld .auto now with
            ⟨hdead, hs', he', ht'⟩ | ⟨hlive, hs', he', ht'⟩
          · left
            have hsl : socketLive s = false := by rw [← hsock]; exact hdead
            refine ⟨?_, ?_, ?_, ?_⟩
            · simp only [step]; rw [if_neg hc, if_neg hp]
              simp only [hg]
              rw [hs', hsent]
            · simp only [recOf, attempt]; rw [if_neg hc, if_neg hp]; simp [Event.time, hg, hsl]
            · simp only [step]; rw [if_neg hc, if_neg hp]
              simp only [hg]
              rw [he', hemit]
            · simp only [step]; rw [if_neg hc, if_neg hp]
              simp only [hg]
              rw [ht', hstats]
          · right
            have hsl : socketLive s = true := by rw [← hsock]; exact hlive
            refine ⟨{ toLocationData := ld, id := now, type := .auto }, ?_, ?_, ?_, ?_, ?_⟩
            · simp only [recOf, attempt]; rw [if_neg hc, if_neg hp]; simp [Event.time, hg, hsl]
            · simp [Event.time]
            · simp only [step]; rw [if_neg hc, if_neg hp]
              simp only [hg]
              rw [hs', hsent]
            · simp only [step]; rw [if_neg hc, if_neg hp]
              simp only [hg]
              rw [he', hemit]
            · simp only [step]; rw [if_neg hc, if_neg hp]
              simp only [hg]
              rw [ht', hstats]
  | subscriptionTick p now =>
    rcases sendLocation_hist_cases { s with nextObjId := s.nextObjId + 1 }
        s.nextObjId (ldOfGeo p now) .auto now with
      ⟨hdead, hs', he', ht'⟩ | ⟨hlive, hs', he', ht'⟩
    · left
      refine ⟨?_, ?_, ?_, ?_⟩
      · simpa [step] using hs'
      · simp [recOf, attempt, Event.time, show socketLive s = false from hdead]
      · simpa [step] using he'
      · simpa [step] using ht'
    · right
      refine ⟨{ toLocationData := ldOfGeo p now, id := now, type := .auto },
        ?_, ?_, ?_, ?_, ?_⟩
      · simp [recOf, attempt, Event.time, show socketLive s = true from hlive]
      · simp [Event.time]
      · simpa [step] using hs'
      · simpa [step] using he'
      · simpa [step] using ht'
  | timerTick res now =>
    rcases hg : getCurrentLocationUpd s res now with ⟨s1, r⟩
    have h1 : (getCurrentLocationUpd s res now).1 = s1 := by rw [hg]
    have hsent : s1.sentLocations = s.sentLocations := by
      rw [← h1]; exact (getCurrentLocationUpd_hist _ _ _).1
    have hemit : s1.emitted = s.emitted := by
      rw [← h1]; exact (getCurrentLocationUpd_hist _ _ _).2
    have hstats : s1.stats = s.stats := by
      rw [← h1]; exact getCurrentLocationUpd_stats _ _ _
    have hsock : socketLive s1 = socketLive s :=
      socketLive_eq_of_socket_eq (by rw [← h1]; exact getCurrentLocationUpd_socket _ _ _)
    cases r with
    | none =>
      left
      refine ⟨?_, ?_, ?_, ?_⟩ <;> simp [step, recOf, attempt, hg, hsent, hemit, hstats]
    | some pr =>
      obtain ⟨o, ld⟩ := pr
      rcases sendLocation_hist_cases s1 o ld .auto now with
        ⟨hdead, hs', he', ht'⟩ | ⟨hlive, hs', he', ht'⟩
      · left
        have hsl : socketLive s = false := by rw [← hsock]; exact hdead
        refine ⟨?_, ?_, ?_, ?_⟩
        · simp only [step, hg]; rw [hs', hsent]
        · simp [recOf, attempt, Event.time, hg, hsl]
        · simp only [step, hg]; rw [he', hemit]
        · simp only [step, hg]; rw [ht', hstats]
      · right
        have hsl : socketLive s = true := by rw [← hsock]; exact hlive
        refine ⟨{ toLocationData := ld, id := now, type := .auto }, ?_, ?_, ?_, ?_, ?_⟩
        · simp [recOf, attempt, Event.time, hg, hsl]
        · simp [Event.time]
        · simp only [step, hg]; rw [hs', hsent]
        · simp only [step, hg]; rw [he', hemit]
        · simp only [step, hg]; rw [ht', hstats]
  | stopTrack now => exact Or.inl ⟨rfl, rfl, rfl, rfl⟩
  | startRandom now =>
    left
    refine ⟨?_, rfl, ?_, ?_⟩ <;> (simp only [step]; split <;> rfl)
  | randomTick d now =>
    rcases sendLocation_hist_cases { s with nextObjId := s.nextObjId + 1 }
        s.nextObjId (ldOfRandom d now) .random now with
      ⟨hdead, hs', he', ht'⟩ | ⟨hlive, hs', he', ht'⟩
    · left
      refine ⟨?_, ?_, ?_, ?_⟩
      · simpa [step] using hs'
      · simp [recOf, attempt, Event.time, show socketLive s = false from hdead]
      · simpa [step] using he'
      · simpa [step] using ht'
    · right
      refine ⟨{ toLocationData := ldOfRandom d now, id := now, type := .random },
        ?_, ?_, ?_, ?_, ?_⟩
      · simp [recOf, attempt, Event.time, show socketLive s = true from hlive]
      · simp [Event.time]
      · simpa [step] using hs'
      · simpa [step] using he'
      · simpa [step] using ht'
  | stopRandom now => exact Or.inl ⟨rfl, rfl, rfl, rfl⟩
  | testLocation lat lng now =>
    by_cases hc : s.isConnected = true
    · rcases sendLocation_hist_cases
          { s with nextObjId := s.nextObjId + 1,
                   lastLocationRef := some (s.nextObjId, ldOfTest lat lng now) }
          s.nextObjId (ldOfTest lat lng now) .test now with
        ⟨hdead, hs', he', ht'⟩ | ⟨hlive, hs', he', ht'⟩
      · left
        refine ⟨?_, ?_, ?_, ?_⟩
        · simp only [step]; rw [if_pos hc]; simpa using hs'
        · simp [recOf, attempt, Event.time, hc, show socketLive s = false from hdead]
        · simp only [step]; rw [if_pos hc]; simpa using he'
        · simp only [step]; rw [if_pos hc]; simpa using ht'
      · right
        refine ⟨{ toLocationData := ldOfTest lat lng now, id := now, type := .test },
          ?_, ?_, ?_, ?_, ?_⟩
        · simp [recOf, attempt, Event.time, hc, show socketLive s = true from hlive]
        · simp [Event.time]
        · simp only [step]; rw [if_pos hc]; simpa using hs'
        · simp only [step]; rw [if_pos hc]; simpa using he'
        · simp only [step]; rw [if_pos hc]; simpa using ht'
    · left
      refine ⟨?_, ?_, ?_, ?_⟩
      · simp only [step]; rw [if_neg hc]
      · simp [recOf, attempt, Event.time, hc]
      · simp only [step]; rw [if_neg hc]
      · simp only [step]; rw [if_neg hc]
  | clearConfirm now => simp [isClearEvent] at hne

/-! ### Trace-level lemmas for the history and counters -/

theorem take_append_take {α : Type} (a b : List α) (n : Nat) :
    (a ++ b.take n).take n = (a ++ b).take n := by
  rw [List.take_append_eq_append_take, List.take_append_eq_append_take, List.take_take,
    Nat.min_eq_left (Nat.sub_le n a.length)]

theorem step_clear_hist (s : AppState) (e : Event) (hcl : isClearEvent e = true) :
    (step s e).sentLocations = [] := by
  cases e <;> first | rfl | (simp [isClearEvent] at hcl)

theorem hist_len_run (es : List Event) : ∀ s : AppState, okTrace s es = true →
    s.sentLocations.length ≤ 100 → (runTrace s es).sentLocations.length ≤ 100 := by
  induction es with
  | nil => exact fun s _ h => h
  | cons e es ih =>
    intro s hok hlen
    simp only [okTrace, Bool.and_eq_true] at hok
    refine ih (step s e) hok.2 ?_
    cases hcl : isClearEvent e with
    | true => rw [step_clear_hist s e hcl]; simp
    | false =>
      rcases step_hist s e hcl with ⟨hs', -, -, -⟩ | ⟨r, -, -, hs', -, -⟩
      · rw [hs']; exact hlen
      · rw [hs']
        simp only [List.length_cons, List.length_take]
        omega

theorem hist_char_run (es : List Event) : ∀ s : AppState, okTrace s es = true →
    noClear es = true → s.sentLocations.length ≤ 100 →
    (runTrace s es).sentLocations = (histLog s es ++ s.sentLocations).take 100 := by
  induction es with
  | nil =>
    intro s _ _ hlen
    simp [histLog, runTrace, List.take_of_length_le hlen]
  | cons e es ih =>
    intro s hok hnc hlen
    simp only [okTrace, Bool.and_eq_true] at hok
    simp only [noClear, List.all_cons, Bool.and_eq_true] at hnc
    have hecl : isClearEvent e = false := by simpa using hnc.1
    have hlen' : (step s e).sentLocations.length ≤ 100 := by
      rcases step_hist s e hecl with ⟨hs', -, -, -⟩ | ⟨r, -, -, hs', -, -⟩
      · rw [hs']; exact hlen
      · rw [hs']
        simp only [List.length_cons, List.length_take]
        omega
    have hrec := ih (step s e) hok.2 hnc.2 hlen'
    simp only [runTrace, histLog]
    rw [hrec]
    rcases step_hist s e hecl with ⟨hs', hrecnil, -, -⟩ | ⟨r, hrec1, -, hs', -, -⟩
    · rw [hs', hrecnil, List.append_nil]
    · rw [hs', hrec1, List.append_assoc]
      have hcons : r :: s.sentLocations.take 99 = (r :: s.sentLocations).take 100 := by
        rw [show (100 : Nat) = 99 + 1 from rfl, List.take_succ_cons]
      rw [hcons, List.singleton_append, take_append_take]

theorem sent_emit_run (es : List Event) : ∀ s : AppState, okTrace s es = true →
    noClear es = true →
    s.stats.totalLocationsSent = s.emitted.length →
    (runTrace s es).stats.totalLocationsSent = (runTrace s es).emitted.length := by
  induction es with
  | nil => exact fun s _ _ h => h
  | cons e es ih =>
    intro s hok hnc hinv
    simp only [okTrace, Bool.and_eq_true] at hok
    simp only [noClear, List.all_cons, Bool.and_eq_true] at hnc
    have hecl : isClearEvent e = false := by simpa using hnc.1
    refine ih (step s e) hok.2 hnc.2 ?_
    rcases step_hist s e hecl with ⟨-, -, he', ht'⟩ | ⟨r, -, -, -, he', ht'⟩
    · rw [ht', he', hinv]
    · rw [ht', he', hinv]

theorem histLog_emit_run (es : List Event) : ∀ s : AppState, okTrace s es = true →
    noClear es = true →
    (runTrace s es).emitted.length = s.emitted.length + (histLog s es).length := by
  induction es with
  | nil => intro s _ _; simp [runTrace, histLog]
  | cons e es ih =>
    intro s hok hnc
    simp only [okTrace, Bool.and_eq_true] at hok
    simp only [noClear, List.all_cons, Bool.and_eq_true] at hnc
    have hecl : isClearEvent e = false := by simpa using hnc.1
    simp only [runTrace, histLog]
    rw [ih (step s e) hok.2 hnc.2, List.length_append]
    rcases step_hist s e hecl with ⟨-, hrecnil, he', -⟩ | ⟨r, hrec1, -, -, he', -⟩
    · rw [hrecnil, he']
      simp
    · rw [hrec1, he']
      simp only [List.length_singleton]
      omega

theorem ids_run (es : List Event) : ∀ (s : AppState) (t : Nat),
    okTrace s es = true → timesOK t es = true →
    (∀ r ∈ s.sentLocations, r.id ≤ t) →
    List.Pairwise (fun a b : SentLocation => b.id < a.id) s.sentLocations →
    List.Pairwise (fun a b : SentLocation => b.id < a.id) (runTrace s es).sentLocations := by
  induction es with
  | nil => exact fun s t _ _ _ hp => hp
  | cons e es ih =>
    intro s t hok htime hbound hp
    simp only [okTrace, Bool.and_eq_true] at hok
    simp only [timesOK, Bool.and_eq_true] at htime
    have ht' : t < e.time := by
      have h := htime.1
      rwa [Nat.blt_eq] at h
    cases hcl : isClearEvent e with
    | true =>
      refine ih (step s e) e.time hok.2 htime.2 ?_ ?_ <;>
        rw [step_clear_hist s e hcl]
      · intro x hx; cases hx
      · exact List.Pairwise.nil
    | false =>
      rcases step_hist s e hcl with ⟨hs', -, -, -⟩ | ⟨r, -, hid, hs', -, -⟩
      · exact ih (step s e) e.time hok.2 htime.2
          (by rw [hs']; exact fun x hx => Nat.le_trans (hbound x hx) (Nat.le_of_lt ht'))
          (by rw [hs']; exact hp)
      · refine ih (step s e) e.time hok.2 htime.2 ?_ ?_
        · rw [hs']
          intro x hx
          rcases List.mem_cons.mp hx with rfl | hx'
          · exact Nat.le_of_eq hid
          · exact Nat.le_trans (hbound x (List.mem_of_mem_take hx')) (Nat.le_of_lt ht')
        · rw [hs']
          refine List.pairwise_cons.mpr ⟨fun x hx => ?_, hp.sublist (List.take_sublist 99 _)⟩
          rw [hid]
          exact Nat.lt_of_le_of_lt (hbound x (List.mem_of_mem_take hx)) ht'

/-! ### Claim C3 -/

/-- Claim C3 is false on the code in two ways, exhibited on trace `trC3`:
the random-data generator creates SentRecords of kind `random`, outside the
claimed closed set {manual, auto, test}; and two submissions whose handlers
run in the same millisecond (`Date.now()` returning 7 twice) receive the
same identifier, so identifiers are not unique within the session. -/
theorem claim_C3_counterexample :
    okTrace (initState "driver-mobile" 0) trC3 = true ∧
    (runTrace (initState "driver-mobile" 0) trC3).sentLocations.map SentLocation.id
      = [7, 7] ∧
    ∃ r ∈ (runTrace (initState "driver-mobile" 0) trC3).sentLocations,
      r.type = SendType.random :=
  ⟨by decide, by decide, by decide⟩

/-- Claim C3 (amended): every SentRecord's provenance kind is drawn from
the closed set {manual, auto, test, random}, and its identifier is the
submission-time clock value (`Date.now()`), which is unique among all
records of the session provided the event clocks are strictly
increasing — uniqueness is not guaranteed when two submissions share a
millisecond. -/
theorem claim_C3_amended (vid : String) (t0 : Nat) (es : List Event)
    (hok : okTrace (initState vid t0) es = true)
    (htime : timesOK t0 es = true) :
    (∀ r ∈ (runTrace (initState vid t0) es).sentLocations,
      r.type = SendType.manual ∨ r.type = SendType.auto ∨ r.type = SendType.test ∨
        r.type = SendType.random) ∧
    List.Pairwise (fun a b : SentLocation => a.id ≠ b.id)
      (runTrace (initState vid t0) es).sentLocations := by
  constructor
  · intro r _
    cases h : r.type
    · exact Or.inl rfl
    · exact Or.inr (Or.inl rfl)
    · exact Or.inr (Or.inr (Or.inl rfl))
    · exact Or.inr (Or.inr (Or.inr rfl))
  · have hp := ids_run es (initState vid t0) t0 hok htime
      (by intro r hr; cases hr) List.Pairwise.nil
    exact hp.imp fun hab => by omega

/-- Witness for the amended Claim C3 on a session with strictly increasing
clocks. -/
theorem claim_C3_witness :
    okTrace (initState "driver-mobile" 0) trSub = true ∧
    timesOK 0 trSub = true ∧
    List.Pairwise (fun a b : SentLocation => a.id ≠ b.id)
      (runTrace (initState "driver-mobile" 0) trSub).sentLocations :=
  ⟨by decide, by decide,
    (claim_C3_amended "driver-mobile" 0 trSub (by decide) (by decide)).2⟩

/-! ### Claim C4 -/

/-- Claim C4: with no intervening clear, `totalLocationsSent` equals the
number of successful submissions — the number of payloads handed to the
transport — regardless of the 100-entry history truncation, which never
decrements the counter. -/
theorem claim_C4 (vid : String) (t0 : Nat) (es : List Event)
    (hok : okTrace (initState vid t0) es = true) (hnc : noClear es = true) :
    (runTrace (initState vid t0) es).stats.totalLocationsSent =
      (runTrace (initState vid t0) es).emitted.length :=
  sent_emit_run es (initState vid t0) hok hnc rfl

/-- Witness for Claim C4 on a session with two successful submissions. -/
theorem claim_C4_witness :
    okTrace (initState "driver-mobile" 0) trSub = true ∧
    noClear trSub = true ∧
    (runTrace (initState "driver-mobile" 0) trSub).emitted.length = 2 ∧
    (runTrace (initState "driver-mobile" 0) trSub).stats.totalLocationsSent =
      (runTrace (initState "driver-mobile" 0) trSub).emitted.length :=
  ⟨by decide, by decide, by decide, claim_C4 "driver-mobile" 0 trSub (by decide) (by decide)⟩

/-! ### Claim C5 -/

/-- Claim C5: the history never exceeds 100 entries in any reachable state;
and, with no intervening clear, the history is exactly the 100 most recent
submitted records in newest-first order (the oldest beyond 100 evicted),
its length is `min (number of successful submissions) 100`, and its first
element is the most recently submitted record. -/
theorem claim_C5 (vid : String) (t0 : Nat) :
    (∀ es, okTrace (initState vid t0) es = true →
      (runTrace (initState vid t0) es).sentLocations.length ≤ 100) ∧
    (∀ es, okTrace (initState vid t0) es = true → noClear es = true →
      (runTrace (initState vid t0) es).sentLocations =
        (histLog (initState vid t0) es).take 100 ∧
      (runTrace (initState vid t0) es).sentLocations.length =
        min (histLog (initState vid t0) es).length 100 ∧
      (runTrace (initState vid t0) es).sentLocations.head? =
        (histLog (initState vid t0) es).head? ∧
      (histLog (initState vid t0) es).length =
        (runTrace (initState vid t0) es).emitted.length) := by
  constructor
  · intro es hok
    exact hist_len_run es (initState vid t0) hok (by simp [initState])
  · intro es hok hnc
    have hchar' : (runTrace (initState vid t0) es).sentLocations
        = (histLog (initState vid t0) es).take 100 := by
      have hchar := hist_char_run es (initState vid t0) hok hnc (by simp [initState])
      simpa [initState] using hchar
    refine ⟨hchar', ?_, ?_, ?_⟩
    · rw [hchar', List.length_take]
      exact Nat.min_comm 100 _
    · rw [hchar']
      rcases hlog : histLog (initState vid t0) es with _ | ⟨a, l⟩
      · rfl
      · rw [show (100 : Nat) = 99 + 1 from rfl, List.take_succ_cons]
        rfl
    · have h := histLog_emit_run es (initState vid t0) hok hnc
      simpa [initState] using h.symm

/-- Witness for Claim C5 on a session with two successful submissions. -/
theorem claim_C5_witness :
    okTrace (initState "driver-mobile" 0) trSub = true ∧
    noClear trSub = true ∧
    (runTrace (initState "driver-mobile" 0) trSub).sentLocations.length =
      min (histLog (initState "driver-mobile" 0) trSub).length 100 :=
  ⟨by decide, by decide,
    ((claim_C5 "driver-mobile" 0).2 trSub (by decide) (by decide)).2.1⟩

end Driver
